import Mathlib

/-!
Verification of the `/run_code` HTTP handler of the sandboxed code-execution
endpoint (`src/app/main.py`, function `run_code_route`).

The handler is embedded shallowly as a pure Lean function.  The parsed JSON
request body is modelled as an association list of string fields (`none`
stands for an unparseable body, matching `request.get_json()` yielding no
data).  Filesystem and subprocess effects are modelled by an explicit trace
of actions emitted by the handler together with an environment `Env` that
fixes the outcome of the fallible operations (the scratch-file write and the
child-process execution).  A small interpreter over the trace recovers the
final existence state of the scratch file and of the workspace directory.
-/

/-- The parsed JSON body: an association list of string-valued fields.
`request.get_json()` returning nothing is `Option.none` at the call site. -/
abbrev ReqData := List (String × String)

/-- `dict.get(key)` on the parsed body: first binding for the key, if any. -/
def dictGet (d : ReqData) (k : String) : Option String :=
  match d with
  | [] => none
  | (k2, v) :: rest => if k2 = k then some v else dictGet rest k

/-- Python truthiness of an optional string field: `not x` is true exactly
when the field is absent or the empty string. -/
def truthy : Option String → Bool
  | none => false
  | some s => !(s == "")

/-- `os.path.basename` on POSIX: everything after the last `/` separator
(the whole string when no separator occurs). -/
def basename (s : String) : String :=
  ((s.toList.reverse.takeWhile (fun c => !(c == '/'))).reverse).asString

/-- `sub` occurs as a contiguous sublist of the second argument. -/
def isSubList (sub : List Char) : List Char → Bool
  | [] => sub.isEmpty
  | c :: rest => sub.isPrefixOf (c :: rest) || isSubList sub rest

/-- Python's `sub in s` substring test. -/
def strContains (s sub : String) : Bool :=
  isSubList sub.toList s.toList

/-- The hardcoded workspace root of `main.py`. -/
def WORKSPACE_DIR : String := "./workspace"

/-- `os.path.join(WORKSPACE_DIR, filename)` for the relative filenames that
survive validation. -/
def fullPath (filename : String) : String :=
  WORKSPACE_DIR ++ "/" ++ filename

/-- Outcome of `subprocess.run` as fixed by the environment: normal
completion with an exit code and captured output, `TimeoutExpired`, or any
other exception (`fault`) with its message. -/
inductive ExecOutcome where
  | completed (returncode : Int) (stdout stderr : String)
  | timedOut
  | fault (msg : String)
deriving DecidableEq, Repr

/-- Environment fixing the fallible operations of one request:
`writeError = some e` means the scratch-file write raises `IOError(e)`;
`openCreatesOnError` tells whether the failed `open(..., 'w')` still left a
(created or truncated) file behind; `exec` is the subprocess outcome. -/
structure Env where
  writeError : Option String
  openCreatesOnError : Bool
  exec : ExecOutcome
deriving DecidableEq, Repr

/-- Filesystem and process actions the handler performs, in order. -/
inductive FsAction where
  | makedirs
  | openWrite (path : String)
  | spawn (cmd : List String)
  | removeFile (path : String)
deriving DecidableEq, Repr

/-- JSON body of a response: either `{"error": msg}` or the execution-result
object with its five fields. -/
inductive RespBody where
  | error (msg : String)
  | result (status : String) (stdout : String) (stderr : String)
      (command_executed : List String) (return_code : Int)
deriving DecidableEq, Repr

/-- An HTTP response: status code plus JSON body. -/
structure HttpResponse where
  httpStatus : Nat
  body : RespBody
deriving DecidableEq, Repr

/-- Result of one handler invocation: the response and the action trace. -/
structure HandlerResult where
  response : HttpResponse
  actions : List FsAction
deriving DecidableEq, Repr

/-- The `stdout` field of a response body, when it is a result object. -/
def RespBody.stdoutOf : RespBody → Option String
  | .error _ => none
  | .result _ out _ _ _ => some out

/-- Shallow embedding of `run_code_route` from `src/app/main.py`.
`data` is the value of `request.get_json()` (`none` if no JSON could be
decoded); `env` fixes the outcomes of the write and of the subprocess. -/
def run_code_route (data : Option ReqData) (env : Env) : HandlerResult :=
  match data with
  | none =>
      ⟨⟨400, .error "Invalid JSON payload"⟩, [.makedirs]⟩
  | some d =>
      if d = [] then
        ⟨⟨400, .error "Invalid JSON payload"⟩, [.makedirs]⟩
      else
        let code := dictGet d "code"
        let filename := dictGet d "filename"
        let language := (dictGet d "language").getD "python"
        if !(truthy code && truthy filename) then
          ⟨⟨400, .error "Missing 'code' or 'filename'"⟩, [.makedirs]⟩
        else
          let fn := filename.getD ""
          if basename fn != fn || strContains fn ".." then
            ⟨⟨400, .error "Invalid filename. Directory traversal attempt detected."⟩,
             [.makedirs]⟩
          else
            let full := fullPath fn
            match env.writeError with
            | some e =>
                ⟨⟨500, .error ("Failed to write code to file: " ++ e)⟩,
                 [.makedirs, .openWrite full]⟩
            | none =>
                if language != "python" then
                  ⟨⟨400, .error ("Unsupported language: " ++ language)⟩,
                   [.makedirs, .openWrite full, .removeFile full]⟩
                else
                  let cmd := ["python", full]
                  match env.exec with
                  | .completed rc out err =>
                      ⟨⟨200, .result (if rc == 0 then "success" else "error")
                          out err cmd rc⟩,
                       [.makedirs, .openWrite full, .spawn cmd, .removeFile full]⟩
                  | .timedOut =>
                      ⟨⟨408, .result "error" ""
                          "Execution timed out after 30 seconds." cmd (-1)⟩,
                       [.makedirs, .openWrite full, .spawn cmd, .removeFile full]⟩
                  | .fault msg =>
                      ⟨⟨500, .result "error" ""
                          ("An unexpected error occurred during execution: " ++ msg)
                          cmd (-2)⟩,
                       [.makedirs, .openWrite full, .spawn cmd, .removeFile full]⟩

/-- Effect of one action on the existence of the file at `path`, under the
environment's write outcome: a successful `open(..., 'w')` plus write leaves
the file in place; a failing write leaves a pre-existing file (truncated)
and creates an absent one exactly when `openCreatesOnError`; `os.remove`
deletes it. -/
def applyAct (env : Env) (path : String) (b : Bool) : FsAction → Bool
  | .makedirs => b
  | .openWrite p =>
      if p == path then
        if env.writeError.isNone then true else b || env.openCreatesOnError
      else b
  | .spawn _ => b
  | .removeFile p => if p == path then false else b

/-- Whether the file at `path` exists after the trace, from initial
existence `init`. -/
def scratchExistsAfter (env : Env) (path : String) (init : Bool)
    (acts : List FsAction) : Bool :=
  acts.foldl (applyAct env path) init

/-- Whether the workspace root directory exists after the trace, from
initial existence `init` (`os.makedirs(..., exist_ok=True)` creates it). -/
def dirExistsAfter (init : Bool) (acts : List FsAction) : Bool :=
  acts.foldl (fun b a => match a with | .makedirs => true | _ => b) init

/-- The Request Validator rejects the body: unparseable, falsy (`{}`),
missing/empty `code` or `filename`, or path-unsafe filename. -/
def isValidatorRejected : Option ReqData → Bool
  | none => true
  | some d =>
      d.isEmpty
      || !(truthy (dictGet d "code") && truthy (dictGet d "filename"))
      || (let fn := (dictGet d "filename").getD ""
          basename fn != fn || strContains fn "..")

/-! ### Concrete requests and environments used as evaluation points -/

def goodReq : ReqData := [("code", "print(1)"), ("filename", "script.py")]
def bashReq : ReqData := [("code", "echo hi"), ("filename", "run.sh"), ("language", "bash")]
def evilReq : ReqData := [("code", "print(1)"), ("filename", "../evil.py")]
def envOk : Env := ⟨none, false, .completed 0 "1\n" ""⟩
def envExit1 : Env := ⟨none, false, .completed 1 "" "boom"⟩
def envTimeout : Env := ⟨none, false, .timedOut⟩
def envFault : Env := ⟨none, false, .fault "No such file or directory"⟩
def envWriteFail : Env := ⟨some "disk full", true, .completed 0 "" ""⟩

/-! ### Helper lemmas -/

/-- Appending to a nonempty literal cannot yield a string with a different
first character. -/
theorem append_ne_of_head_ne (a s t : String) (c : Char)
    (ha : a.data.head? = some c) (ht : t.data.head? ≠ some c) : a ++ s ≠ t := by
  intro h
  apply ht
  rw [← h, String.data_append]
  cases a with
  | mk l =>
    cases l with
    | nil => simp at ha
    | cons x xs => simpa using ha

/-- Branch lemma: rejected body (`{}`). -/
theorem rcr_empty (env : Env) :
    run_code_route (some []) env =
      ⟨⟨400, .error "Invalid JSON payload"⟩, [.makedirs]⟩ := rfl

/-- Branch lemma: missing or empty `code`/`filename`. -/
theorem rcr_missing (d : ReqData) (env : Env) (h1 : ¬ d = [])
    (h2 : (truthy (dictGet d "code") && truthy (dictGet d "filename")) = false) :
    run_code_route (some d) env =
      ⟨⟨400, .error "Missing 'code' or 'filename'"⟩, [.makedirs]⟩ := by
  simp [run_code_route, h1, h2]

/-- Branch lemma: path-unsafe filename. -/
theorem rcr_traversal (d : ReqData) (env : Env) (h1 : ¬ d = [])
    (h2 : (truthy (dictGet d "code") && truthy (dictGet d "filename")) = true)
    (h3 : (basename ((dictGet d "filename").getD "") != (dictGet d "filename").getD ""
           || strContains ((dictGet d "filename").getD "") "..") = true) :
    run_code_route (some d) env =
      ⟨⟨400, .error "Invalid filename. Directory traversal attempt detected."⟩,
       [.makedirs]⟩ := by
  simp [run_code_route, h1, h2, h3]

/-- Branch lemma: the scratch-file write raises `IOError`. -/
theorem rcr_writefail (d : ReqData) (env : Env) (e : String) (h1 : ¬ d = [])
    (h2 : (truthy (dictGet d "code") && truthy (dictGet d "filename")) = true)
    (h3 : (basename ((dictGet d "filename").getD "") != (dictGet d "filename").getD ""
           || strContains ((dictGet d "filename").getD "") "..") = false)
    (hw : env.writeError = some e) :
    run_code_route (some d) env =
      ⟨⟨500, .error ("Failed to write code to file: " ++ e)⟩,
       [.makedirs, .openWrite (fullPath ((dictGet d "filename").getD ""))]⟩ := by
  simp [run_code_route, h1, h2, h3, hw]

/-- Branch lemma: unsupported language. -/
theorem rcr_unsupported (d : ReqData) (env : Env) (h1 : ¬ d = [])
    (h2 : (truthy (dictGet d "code") && truthy (dictGet d "filename")) = true)
    (h3 : (basename ((dictGet d "filename").getD "") != (dictGet d "filename").getD ""
           || strContains ((dictGet d "filename").getD "") "..") = false)
    (hw : env.writeError = none)
    (hl : ¬ (dictGet d "language").getD "python" = "python") :
    run_code_route (some d) env =
      ⟨⟨400, .error ("Unsupported language: " ++ (dictGet d "language").getD "python")⟩,
       [.makedirs, .openWrite (fullPath ((dictGet d "filename").getD "")),
        .removeFile (fullPath ((dictGet d "filename").getD ""))]⟩ := by
  simp [run_code_route, h1, h2, h3, hw, hl]

/-- Branch lemma: normal subprocess completion. -/
theorem rcr_completed (d : ReqData) (env : Env) (rc : Int) (out err : String)
    (h1 : ¬ d = [])
    (h2 : (truthy (dictGet d "code") && truthy (dictGet d "filename")) = true)
    (h3 : (basename ((dictGet d "filename").getD "") != (dictGet d "filename").getD ""
           || strContains ((dictGet d "filename").getD "") "..") = false)
    (hw : env.writeError = none)
    (hl : (dictGet d "language").getD "python" = "python")
    (hx : env.exec = .completed rc out err) :
    run_code_route (some d) env =
      ⟨⟨200, .result (if rc == 0 then "success" else "error") out err
          ["python", fullPath ((dictGet d "filename").getD "")] rc⟩,
       [.makedirs, .openWrite (fullPath ((dictGet d "filename").getD "")),
        .spawn ["python", fullPath ((dictGet d "filename").getD "")],
        .removeFile (fullPath ((dictGet d "filename").getD ""))]⟩ := by
  simp [run_code_route, h1, h2, h3, hw, hl, hx]

/-- Branch lemma: subprocess timeout. -/
theorem rcr_timeout (d : ReqData) (env : Env) (h1 : ¬ d = [])
    (h2 : (truthy (dictGet d "code") && truthy (dictGet d "filename")) = true)
    (h3 : (basename ((dictGet d "filename").getD "") != (dictGet d "filename").getD ""
           || strContains ((dictGet d "filename").getD "") "..") = false)
    (hw : env.writeError = none)
    (hl : (dictGet d "language").getD "python" = "python")
    (hx : env.exec = .timedOut) :
    run_code_route (some d) env =
      ⟨⟨408, .result "error" "" "Execution timed out after 30 seconds."
          ["python", fullPath ((dictGet d "filename").getD "")] (-1)⟩,
       [.makedirs, .openWrite (fullPath ((dictGet d "filename").getD "")),
        .spawn ["python", fullPath ((dictGet d "filename").getD "")],
        .removeFile (fullPath ((dictGet d "filename").getD ""))]⟩ := by
  simp [run_code_route, h1, h2, h3, hw, hl, hx]

/-- Branch lemma: unexpected execution fault. -/
theorem rcr_fault (d : ReqData) (env : Env) (m : String) (h1 : ¬ d = [])
    (h2 : (truthy (dictGet d "code") && truthy (dictGet d "filename")) = true)
    (h3 : (basename ((dictGet d "filename").getD "") != (dictGet d "filename").getD ""
           || strContains ((dictGet d "filename").getD "") "..") = false)
    (hw : env.writeError = none)
    (hl : (dictGet d "language").getD "python" = "python")
    (hx : env.exec = .fault m) :
    run_code_route (some d) env =
      ⟨⟨500, .result "error" "" ("An unexpected error occurred during execution: " ++ m)
          ["python", fullPath ((dictGet d "filename").getD "")] (-2)⟩,
       [.makedirs, .openWrite (fullPath ((dictGet d "filename").getD "")),
        .spawn ["python", fullPath ((dictGet d "filename").getD "")],
        .removeFile (fullPath ((dictGet d "filename").getD ""))]⟩ := by
  simp [run_code_route, h1, h2, h3, hw, hl, hx]

/-- Case analysis on the handler's response: every response is either an
error body or one of the three execution-result shapes, and each of the
latter is tied to the environment's subprocess outcome. -/
theorem response_shape (data : Option ReqData) (env : Env) :
    (∃ m, (run_code_route data env).response.body = RespBody.error m) ∨
    (∃ rc out err cmd, env.exec = ExecOutcome.completed rc out err ∧
       (run_code_route data env).response =
         ⟨200, RespBody.result (if rc == 0 then "success" else "error") out err cmd rc⟩) ∨
    (∃ cmd, env.exec = ExecOutcome.timedOut ∧
       (run_code_route data env).response =
         ⟨408, RespBody.result "error" "" "Execution timed out after 30 seconds." cmd (-1)⟩) ∨
    (∃ m cmd, env.exec = ExecOutcome.fault m ∧
       (run_code_route data env).response =
         ⟨500, RespBody.result "error" ""
           ("An unexpected error occurred during execution: " ++ m) cmd (-2)⟩) := by
  cases data with
  | none => exact Or.inl ⟨_, rfl⟩
  | some d =>
    by_cases h1 : d = []
    · subst h1
      exact Or.inl ⟨_, rfl⟩
    · by_cases h2 : (truthy (dictGet d "code") && truthy (dictGet d "filename")) = true
      · by_cases h3 : (basename ((dictGet d "filename").getD "") != (dictGet d "filename").getD ""
                       || strContains ((dictGet d "filename").getD "") "..") = true
        · rw [rcr_traversal d env h1 h2 h3]
          exact Or.inl ⟨_, rfl⟩
        · cases hw : env.writeError with
          | some e =>
            rw [rcr_writefail d env e h1 h2 (by simpa using h3) hw]
            exact Or.inl ⟨_, rfl⟩
          | none =>
            by_cases hl : (dictGet d "language").getD "python" = "python"
            · cases hx : env.exec with
              | completed rc out err =>
                rw [rcr_completed d env rc out err h1 h2 (by simpa using h3) hw hl hx]
                exact Or.inr (Or.inl ⟨rc, out, err, _, rfl, rfl⟩)
              | timedOut =>
                rw [rcr_timeout d env h1 h2 (by simpa using h3) hw hl hx]
                exact Or.inr (Or.inr (Or.inl ⟨_, rfl, rfl⟩))
              | fault m =>
                rw [rcr_fault d env m h1 h2 (by simpa using h3) hw hl hx]
                exact Or.inr (Or.inr (Or.inr ⟨m, _, rfl, rfl⟩))
            · rw [rcr_unsupported d env h1 h2 (by simpa using h3) hw hl]
              exact Or.inl ⟨_, rfl⟩
      · rw [rcr_missing d env h1 (by simpa using h2)]
        exact Or.inl ⟨_, rfl⟩

/-- C1: for every request that passes validation and whose scratch-file
write succeeds, the scratch file at `<workspace>/<filename>` no longer
exists once the response has been returned, on every outcome path (normal
completion with any exit code, timeout, and unexpected execution fault). -/
theorem C1_scratch_file_cleanup (d : ReqData) (env : Env) (init : Bool) (fn : String)
    (h1 : ¬ d = [])
    (h2 : (truthy (dictGet d "code") && truthy (dictGet d "filename")) = true)
    (hfn : dictGet d "filename" = some fn)
    (h3 : (basename fn != fn || strContains fn "..") = false)
    (hw : env.writeError = none) :
    scratchExistsAfter env (fullPath fn) init
      (run_code_route (some d) env).actions = false := by
  have h3' : (basename ((dictGet d "filename").getD "") != (dictGet d "filename").getD ""
              || strContains ((dictGet d "filename").getD "") "..") = false := by
    rw [hfn]
    simpa using h3
  by_cases hl : (dictGet d "language").getD "python" = "python"
  · cases hx : env.exec with
    | completed rc out err =>
      rw [rcr_completed d env rc out err h1 h2 h3' hw hl hx]
      simp [scratchExistsAfter, applyAct, hfn, hw]
    | timedOut =>
      rw [rcr_timeout d env h1 h2 h3' hw hl hx]
      simp [scratchExistsAfter, applyAct, hfn, hw]
    | fault m =>
      rw [rcr_fault d env m h1 h2 h3' hw hl hx]
      simp [scratchExistsAfter, applyAct, hfn, hw]
  · rw [rcr_unsupported d env h1 h2 h3' hw hl]
    simp [scratchExistsAfter, applyAct, hfn, hw]

theorem C1_scratch_file_cleanup_witness :
    (¬ goodReq = []) ∧
    (truthy (dictGet goodReq "code") && truthy (dictGet goodReq "filename")) = true ∧
    dictGet goodReq "filename" = some "script.py" ∧
    (basename "script.py" != "script.py" || strContains "script.py" "..") = false ∧
    envTimeout.writeError = none ∧
    scratchExistsAfter envTimeout (fullPath "script.py") true
      (run_code_route (some goodReq) envTimeout).actions = false :=
  ⟨by decide, by decide, rfl, by decide, rfl,
   C1_scratch_file_cleanup goodReq envTimeout true "script.py"
     (by decide) (by decide) rfl (by decide) rfl⟩

/-- C2: in every response produced by the execution stage (normal exit,
timeout, or fault), the `status` field equals "success" if and only if the
`return_code` field equals 0; the timeout response (`return_code` -1) and
the fault response (`return_code` -2) therefore carry `status` "error". -/
theorem C2_status_iff_zero (data : Option ReqData) (env : Env)
    (st out err : String) (cmd : List String) (rc : Int)
    (h : (run_code_route data env).response.body =
         RespBody.result st out err cmd rc) :
    st = "success" ↔ rc = 0 := by
  rcases response_shape data env with ⟨m, hm⟩ | ⟨rc0, out0, err0, cmd0, -, hr⟩ |
    ⟨cmd0, -, hr⟩ | ⟨m, cmd0, -, hr⟩
  · rw [h] at hm
    exact absurd hm (by simp)
  · rw [hr] at h
    have h' : (if rc0 == 0 then "success" else "error") = st ∧
        out0 = out ∧ err0 = err ∧ cmd0 = cmd ∧ rc0 = rc := by
      simpa using h
    obtain ⟨hst, -, -, -, hrc⟩ := h'
    subst hrc
    by_cases h0 : rc0 = 0
    · subst h0
      simp only [beq_self_eq_true, if_true] at hst
      subst hst
      simp
    · rw [if_neg (by simpa using h0)] at hst
      subst hst
      constructor
      · intro hcon
        exact absurd hcon (by decide)
      · intro hcon
        exact absurd hcon h0
  · rw [hr] at h
    have h' : ("error" : String) = st ∧ ("" : String) = out ∧
        ("Execution timed out after 30 seconds." : String) = err ∧
        cmd0 = cmd ∧ (-1 : Int) = rc := by
      simpa using h
    obtain ⟨hst, -, -, -, hrc⟩ := h'
    subst hst
    subst hrc
    constructor
    · intro hcon
      exact absurd hcon (by decide)
    · intro hcon
      exact absurd hcon (by decide)
  · rw [hr] at h
    have h' : ("error" : String) = st ∧ ("" : String) = out ∧
        ("An unexpected error occurred during execution: " ++ m) = err ∧
        cmd0 = cmd ∧ (-2 : Int) = rc := by
      simpa using h
    obtain ⟨hst, -, -, -, hrc⟩ := h'
    subst hst
    subst hrc
    constructor
    · intro hcon
      exact absurd hcon (by decide)
    · intro hcon
      exact absurd hcon (by decide)

theorem C2_status_iff_zero_witness :
    (run_code_route (some goodReq) envExit1).response.body =
      RespBody.result "error" "" "boom" ["python", "./workspace/script.py"] 1 ∧
    (("error" : String) = "success" ↔ (1 : Int) = 0) :=
  ⟨rfl, C2_status_iff_zero (some goodReq) envExit1 "error" "" "boom"
     ["python", "./workspace/script.py"] 1 rfl⟩

/-- C3: the claim expects the empty JSON object `{}` to be answered with
`{"error": "Missing 'code' or 'filename'"}`, as the repository's own test
`test_run_code_empty_payload` asserts; the code's `if not data:` guard
treats the empty dict as a missing payload, so `{}` is in fact answered
with `{"error": "Invalid JSON payload"}` (still HTTP 400). -/
theorem C3_empty_object_response :
    (run_code_route (some []) envOk).response =
      ⟨400, RespBody.error "Invalid JSON payload"⟩ ∧
    ("Invalid JSON payload" : String) ≠ "Missing 'code' or 'filename'" :=
  ⟨rfl, by decide⟩

/-- C9: on both the timeout path and the unexpected-fault path, the
`stdout` field of the response is the empty string — output produced by the
child before the timeout or fault is never returned. -/
theorem C9_stdout_discarded (data : Option ReqData) (env : Env)
    (hto : env.exec = ExecOutcome.timedOut ∨ ∃ m, env.exec = ExecOutcome.fault m)
    (st out err : String) (cmd : List String) (rc : Int)
    (h : (run_code_route data env).response.body =
         RespBody.result st out err cmd rc) :
    out = "" := by
  rcases response_shape data env with ⟨m, hm⟩ | ⟨rc0, out0, err0, cmd0, hx, hr⟩ |
    ⟨cmd0, -, hr⟩ | ⟨m, cmd0, -, hr⟩
  · rw [h] at hm
    exact absurd hm (by simp)
  · rcases hto with ht | ⟨m, hf⟩
    · rw [hx] at ht
      exact absurd ht (by simp)
    · rw [hx] at hf
      exact absurd hf (by simp)
  · rw [hr] at h
    have h' : ("error" : String) = st ∧ ("" : String) = out ∧
        ("Execution timed out after 30 seconds." : String) = err ∧
        cmd0 = cmd ∧ (-1 : Int) = rc := by
      simpa using h
    exact h'.2.1.symm
  · rw [hr] at h
    have h' : ("error" : String) = st ∧ ("" : String) = out ∧
        ("An unexpected error occurred during execution: " ++ m) = err ∧
        cmd0 = cmd ∧ (-2 : Int) = rc := by
      simpa using h
    exact h'.2.1.symm

theorem C9_stdout_discarded_witness :
    (envFault.exec = ExecOutcome.timedOut ∨
       ∃ m, envFault.exec = ExecOutcome.fault m) ∧
    (run_code_route (some goodReq) envFault).response.body =
      RespBody.result "error" ""
        "An unexpected error occurred during execution: No such file or directory"
        ["python", "./workspace/script.py"] (-2) ∧
    ("" : String) = "" :=
  ⟨Or.inr ⟨"No such file or directory", rfl⟩, rfl,
   C9_stdout_discarded (some goodReq) envFault
     (Or.inr ⟨"No such file or directory", rfl⟩) "error" ""
     "An unexpected error occurred during execution: No such file or directory"
     ["python", "./workspace/script.py"] (-2) rfl⟩

/-- C4: a request whose filename differs from its own base name or contains
the substring ".." is answered HTTP 400 with the traversal error body and
no file is written (the trace is just the workspace-directory creation);
conversely, a filename equal to its base name and free of ".." is never
answered with the traversal error body. -/
theorem C4_traversal_rejection (d : ReqData) (env : Env) (fn : String)
    (h1 : ¬ d = [])
    (h2 : (truthy (dictGet d "code") && truthy (dictGet d "filename")) = true)
    (hfn : dictGet d "filename" = some fn) :
    ((basename fn != fn || strContains fn "..") = true →
       run_code_route (some d) env =
         ⟨⟨400, RespBody.error "Invalid filename. Directory traversal attempt detected."⟩,
          [FsAction.makedirs]⟩) ∧
    ((basename fn != fn || strContains fn "..") = false →
       (run_code_route (some d) env).response.body ≠
         RespBody.error "Invalid filename. Directory traversal attempt detected.") := by
  constructor
  · intro h3
    exact rcr_traversal d env h1 h2 (by rw [hfn]; simpa using h3)
  · intro h3
    have h3' : (basename ((dictGet d "filename").getD "") != (dictGet d "filename").getD ""
                || strContains ((dictGet d "filename").getD "") "..") = false := by
      rw [hfn]
      simpa using h3
    cases hw : env.writeError with
    | some e =>
      rw [rcr_writefail d env e h1 h2 h3' hw]
      intro hcon
      have hmsg : ("Failed to write code to file: " ++ e) =
          "Invalid filename. Directory traversal attempt detected." := by
        simpa using hcon
      exact append_ne_of_head_ne "Failed to write code to file: " e _ 'F'
        (by decide) (by decide) hmsg
    | none =>
      by_cases hl : (dictGet d "language").getD "python" = "python"
      · cases hx : env.exec with
        | completed rc out err =>
          rw [rcr_completed d env rc out err h1 h2 h3' hw hl hx]
          simp
        | timedOut =>
          rw [rcr_timeout d env h1 h2 h3' hw hl hx]
          simp
        | fault m =>
          rw [rcr_fault d env m h1 h2 h3' hw hl hx]
          simp
      · rw [rcr_unsupported d env h1 h2 h3' hw hl]
        intro hcon
        have hmsg : ("Unsupported language: " ++ (dictGet d "language").getD "python") =
            "Invalid filename. Directory traversal attempt detected." := by
          simpa using hcon
        exact append_ne_of_head_ne "Unsupported language: " _ _ 'U'
          (by decide) (by decide) hmsg

theorem C4_traversal_rejection_witness :
    (¬ evilReq = []) ∧
    (truthy (dictGet evilReq "code") && truthy (dictGet evilReq "filename")) = true ∧
    dictGet evilReq "filename" = some "../evil.py" ∧
    (basename "../evil.py" != "../evil.py" || strContains "../evil.py" "..") = true ∧
    run_code_route (some evilReq) envOk =
      ⟨⟨400, RespBody.error "Invalid filename. Directory traversal attempt detected."⟩,
       [FsAction.makedirs]⟩ :=
  ⟨by decide, by decide, rfl, by decide,
   (C4_traversal_rejection evilReq envOk "../evil.py"
      (by decide) (by decide) rfl).1 (by decide)⟩

/-- C5 counterexample: the claim says no filesystem action occurs before a
validation rejection and in particular that the workspace root is not
created for rejected requests; but the handler's very first statement is
`os.makedirs(WORKSPACE_DIR, exist_ok=True)`, so even a request with an
unparseable body (rejected by the validator) creates the workspace root
when it did not already exist. -/
theorem C5_workspace_created_for_rejected :
    isValidatorRejected none = true ∧
    FsAction.makedirs ∈ (run_code_route none envOk).actions ∧
    dirExistsAfter false (run_code_route none envOk).actions = true :=
  ⟨rfl, by decide, rfl⟩

/-- C5 (amended): for every request rejected by the validator, the response
is HTTP 400 and the action trace is exactly the workspace-directory
creation — so no file is written and no subprocess is spawned before the
rejection, but the workspace root directory IS created at handler entry. -/
theorem C5_rejection_trace (data : Option ReqData) (env : Env)
    (h : isValidatorRejected data = true) :
    (run_code_route data env).response.httpStatus = 400 ∧
    (run_code_route data env).actions = [FsAction.makedirs] := by
  cases data with
  | none => exact ⟨rfl, rfl⟩
  | some d =>
    by_cases h1 : d = []
    · subst h1
      exact ⟨rfl, rfl⟩
    · simp only [isValidatorRejected] at h
      by_cases h2 : (truthy (dictGet d "code") && truthy (dictGet d "filename")) = true
      · simp only [Bool.or_eq_true] at h
        rcases h with (hE | hM) | h3
        · exact absurd (List.isEmpty_iff.mp hE) h1
        · rw [h2] at hM
          exact absurd hM (by decide)
        · rw [rcr_traversal d env h1 h2 (by rcases h3 with h | h <;> simp [h])]
          exact ⟨rfl, rfl⟩
      · rw [rcr_missing d env h1 (by simpa using h2)]
        exact ⟨rfl, rfl⟩

theorem C5_rejection_trace_witness :
    isValidatorRejected (some evilReq) = true ∧
    (run_code_route (some evilReq) envOk).response.httpStatus = 400 ∧
    (run_code_route (some evilReq) envOk).actions = [FsAction.makedirs] :=
  ⟨by decide, (C5_rejection_trace (some evilReq) envOk (by decide)).1,
   (C5_rejection_trace (some evilReq) envOk (by decide)).2⟩

/-- C6: a validated request whose language is anything other than "python"
is answered HTTP 400 with `{"error": "Unsupported language: <language>"}`,
no subprocess is spawned, and the already-written scratch file is removed
before the response, so it does not exist afterwards. -/
theorem C6_unsupported_language_cleanup (d : ReqData) (env : Env) (init : Bool)
    (fn : String)
    (h1 : ¬ d = [])
    (h2 : (truthy (dictGet d "code") && truthy (dictGet d "filename")) = true)
    (hfn : dictGet d "filename" = some fn)
    (h3 : (basename fn != fn || strContains fn "..") = false)
    (hw : env.writeError = none)
    (hl : ¬ (dictGet d "language").getD "python" = "python") :
    (run_code_route (some d) env).response =
      ⟨400, RespBody.error ("Unsupported language: " ++ (dictGet d "language").getD "python")⟩ ∧
    (∀ c, FsAction.spawn c ∉ (run_code_route (some d) env).actions) ∧
    scratchExistsAfter env (fullPath fn) init
      (run_code_route (some d) env).actions = false := by
  have h3' : (basename ((dictGet d "filename").getD "") != (dictGet d "filename").getD ""
              || strContains ((dictGet d "filename").getD "") "..") = false := by
    rw [hfn]
    simpa using h3
  rw [rcr_unsupported d env h1 h2 h3' hw hl]
  refine ⟨rfl, ?_, ?_⟩
  · intro c
    simp
  · simp [scratchExistsAfter, applyAct, hfn, hw]

theorem C6_unsupported_language_cleanup_witness :
    (¬ bashReq = []) ∧
    (truthy (dictGet bashReq "code") && truthy (dictGet bashReq "filename")) = true ∧
    dictGet bashReq "filename" = some "run.sh" ∧
    (basename "run.sh" != "run.sh" || strContains "run.sh" "..") = false ∧
    envOk.writeError = none ∧
    (¬ (dictGet bashReq "language").getD "python" = "python") ∧
    (run_code_route (some bashReq) envOk).response =
      ⟨400, RespBody.error "Unsupported language: bash"⟩ ∧
    (∀ c, FsAction.spawn c ∉ (run_code_route (some bashReq) envOk).actions) ∧
    scratchExistsAfter envOk (fullPath "run.sh") false
      (run_code_route (some bashReq) envOk).actions = false :=
  ⟨by decide, by decide, rfl, by decide, rfl, by decide,
   (C6_unsupported_language_cleanup bashReq envOk false "run.sh"
      (by decide) (by decide) rfl (by decide) rfl (by decide)).1,
   (C6_unsupported_language_cleanup bashReq envOk false "run.sh"
      (by decide) (by decide) rfl (by decide) rfl (by decide)).2.1,
   (C6_unsupported_language_cleanup bashReq envOk false "run.sh"
      (by decide) (by decide) rfl (by decide) rfl (by decide)).2.2⟩

/-- C7: when the execution exceeds the 30-second ceiling, the response is
HTTP 408 with status "error", stderr exactly "Execution timed out after 30
seconds.", return_code -1, and command_executed equal to the literal
argument vector that was run. -/
theorem C7_timeout_response (d : ReqData) (env : Env) (fn : String)
    (h1 : ¬ d = [])
    (h2 : (truthy (dictGet d "code") && truthy (dictGet d "filename")) = true)
    (hfn : dictGet d "filename" = some fn)
    (h3 : (basename fn != fn || strContains fn "..") = false)
    (hw : env.writeError = none)
    (hl : (dictGet d "language").getD "python" = "python")
    (hx : env.exec = ExecOutcome.timedOut) :
    (run_code_route (some d) env).response =
      ⟨408, RespBody.result "error" "" "Execution timed out after 30 seconds."
        ["python", fullPath fn] (-1)⟩ := by
  have h3' : (basename ((dictGet d "filename").getD "") != (dictGet d "filename").getD ""
              || strContains ((dictGet d "filename").getD "") "..") = false := by
    rw [hfn]
    simpa using h3
  rw [rcr_timeout d env h1 h2 h3' hw hl hx]
  simp [hfn]

theorem C7_timeout_response_witness :
    (¬ goodReq = []) ∧
    (truthy (dictGet goodReq "code") && truthy (dictGet goodReq "filename")) = true ∧
    dictGet goodReq "filename" = some "script.py" ∧
    (basename "script.py" != "script.py" || strContains "script.py" "..") = false ∧
    envTimeout.writeError = none ∧
    (dictGet goodReq "language").getD "python" = "python" ∧
    envTimeout.exec = ExecOutcome.timedOut ∧
    (run_code_route (some goodReq) envTimeout).response =
      ⟨408, RespBody.result "error" "" "Execution timed out after 30 seconds."
        ["python", fullPath "script.py"] (-1)⟩ :=
  ⟨by decide, by decide, rfl, by decide, rfl, rfl, rfl,
   C7_timeout_response goodReq envTimeout "script.py"
     (by decide) (by decide) rfl (by decide) rfl rfl rfl⟩

/-- C8: a validated request whose child process exits normally with a
non-zero code is answered with HTTP status 200 while the body carries
status "error" and return_code equal to the actual exit code. -/
theorem C8_nonzero_exit_http200 (d : ReqData) (env : Env) (fn : String)
    (rc : Int) (out err : String)
    (h1 : ¬ d = [])
    (h2 : (truthy (dictGet d "code") && truthy (dictGet d "filename")) = true)
    (hfn : dictGet d "filename" = some fn)
    (h3 : (basename fn != fn || strContains fn "..") = false)
    (hw : env.writeError = none)
    (hl : (dictGet d "language").getD "python" = "python")
    (hx : env.exec = ExecOutcome.completed rc out err)
    (hrc : ¬ rc = 0) :
    (run_code_route (some d) env).response =
      ⟨200, RespBody.result "error" out err ["python", fullPath fn] rc⟩ := by
  have h3' : (basename ((dictGet d "filename").getD "") != (dictGet d "filename").getD ""
              || strContains ((dictGet d "filename").getD "") "..") = false := by
    rw [hfn]
    simpa using h3
  rw [rcr_completed d env rc out err h1 h2 h3' hw hl hx]
  simp [hfn, hrc]

theorem C8_nonzero_exit_http200_witness :
    (¬ goodReq = []) ∧
    (truthy (dictGet goodReq "code") && truthy (dictGet goodReq "filename")) = true ∧
    dictGet goodReq "filename" = some "script.py" ∧
    (basename "script.py" != "script.py" || strContains "script.py" "..") = false ∧
    envExit1.writeError = none ∧
    (dictGet goodReq "language").getD "python" = "python" ∧
    envExit1.exec = ExecOutcome.completed 1 "" "boom" ∧
    (¬ (1 : Int) = 0) ∧
    (run_code_route (some goodReq) envExit1).response =
      ⟨200, RespBody.result "error" "" "boom" ["python", fullPath "script.py"] 1⟩ :=
  ⟨by decide, by decide, rfl, by decide, rfl, rfl, rfl, by decide,
   C8_nonzero_exit_http200 goodReq envExit1 "script.py" 1 "" "boom"
     (by decide) (by decide) rfl (by decide) rfl rfl rfl (by decide)⟩

/-- C10: when the scratch-file write fails with an I/O error, the handler
answers HTTP 500 with an error naming the failure detail and performs no
cleanup on that path: the trace stops at the failed write, and the file's
final existence is exactly what the failed open left behind (a pre-existing
file stays, an absent one exists only if the failed open created it). -/
theorem C10_write_failure_no_cleanup (d : ReqData) (env : Env) (init : Bool)
    (fn e : String)
    (h1 : ¬ d = [])
    (h2 : (truthy (dictGet d "code") && truthy (dictGet d "filename")) = true)
    (hfn : dictGet d "filename" = some fn)
    (h3 : (basename fn != fn || strContains fn "..") = false)
    (hw : env.writeError = some e) :
    (run_code_route (some d) env).response =
      ⟨500, RespBody.error ("Failed to write code to file: " ++ e)⟩ ∧
    (run_code_route (some d) env).actions =
      [FsAction.makedirs, FsAction.openWrite (fullPath fn)] ∧
    scratchExistsAfter env (fullPath fn) init
      (run_code_route (some d) env).actions =
      (init || env.openCreatesOnError) := by
  have h3' : (basename ((dictGet d "filename").getD "") != (dictGet d "filename").getD ""
              || strContains ((dictGet d "filename").getD "") "..") = false := by
    rw [hfn]
    simpa using h3
  rw [rcr_writefail d env e h1 h2 h3' hw]
  refine ⟨rfl, by simp [hfn], ?_⟩
  · simp [scratchExistsAfter, applyAct, hfn, hw]

theorem C10_write_failure_no_cleanup_witness :
    (¬ goodReq = []) ∧
    (truthy (dictGet goodReq "code") && truthy (dictGet goodReq "filename")) = true ∧
    dictGet goodReq "filename" = some "script.py" ∧
    (basename "script.py" != "script.py" || strContains "script.py" "..") = false ∧
    envWriteFail.writeError = some "disk full" ∧
    (run_code_route (some goodReq) envWriteFail).response =
      ⟨500, RespBody.error "Failed to write code to file: disk full"⟩ ∧
    (run_code_route (some goodReq) envWriteFail).actions =
      [FsAction.makedirs, FsAction.openWrite (fullPath "script.py")] ∧
    scratchExistsAfter envWriteFail (fullPath "script.py") false
      (run_code_route (some goodReq) envWriteFail).actions =
      (false || envWriteFail.openCreatesOnError) :=
  ⟨by decide, by decide, rfl, by decide, rfl,
   (C10_write_failure_no_cleanup goodReq envWriteFail false "script.py" "disk full"
      (by decide) (by decide) rfl (by decide) rfl).1,
   (C10_write_failure_no_cleanup goodReq envWriteFail false "script.py" "disk full"
      (by decide) (by decide) rfl (by decide) rfl).2.1,
   (C10_write_failure_no_cleanup goodReq envWriteFail false "script.py" "disk full"
      (by decide) (by decide) rfl (by decide) rfl).2.2⟩
